import Mathlib

set_option maxHeartbeats 1000000
set_option maxRecDepth 10000

/-!
Shallow embedding of the Tetris rule engine from `src/main.rs`
(`TetrisGame`, `TetrisCellScreen`, `Figure` and their methods).
The board is a row-major list of optional cell colors of fixed size
`CELL_COUNT_X * CELL_COUNT_Y`; `usize` coordinates become `Nat`,
`isize` offsets become `Int`.
-/

/-- Cell colors, from the source enum `TetrisCellColor`. -/
inductive TetrisCellColor where
  | Red | Orange | Yellow | Green | Blue | DeepBlue | Purple
  deriving DecidableEq, Repr

/-- Board coordinates, from the source struct `Point(usize, usize)`. -/
structure Point where
  x : Nat
  y : Nat
  deriving DecidableEq, Repr

/-- Board width, from `const CELL_COUNT_X: usize = 10`. -/
abbrev CELL_COUNT_X : Nat := 10

/-- Board height, from `const CELL_COUNT_Y: usize = 16`. -/
abbrev CELL_COUNT_Y : Nat := 16

/-- Gravity timer period in milliseconds, from `const PERIOD_MS: u32 = 333`. -/
abbrev PERIOD_MS : Nat := 333

/-- A board layer: row-major list of optional cell colors. -/
abbrev Cells := List (Option TetrisCellColor)

/-- The 19 shape/rotation variants, from the source enum `Figure`. -/
inductive Figure where
  | Cube
  | LineHorizontal
  | LineVertical
  | LeftL0 | LeftL90 | LeftL180 | LeftL270
  | RightL0 | RightL90 | RightL180 | RightL270
  | LeftZigzagHorizontal | LeftZigzagVertical
  | RightZigzagHorizontal | RightZigzagVertical
  | Pyramid0 | Pyramid90 | Pyramid180 | Pyramid270
  deriving DecidableEq, Repr

/-- Occupancy bitmap `CUBE_CELLS` from the source. -/
def CUBE_CELLS : List Bool := [
  true, true,
  true, true]

/-- Occupancy bitmap `LINE_HORIZONTAL` from the source. -/
def LINE_HORIZONTAL : List Bool := [
  true, true, true, true]

/-- Occupancy bitmap `LINE_VERTICAL` (the source aliases it to `LINE_HORIZONTAL`). -/
def LINE_VERTICAL : List Bool := LINE_HORIZONTAL

/-- Occupancy bitmap `LEFT_L_0` from the source. -/
def LEFT_L_0 : List Bool := [
  true,  true,
  false, true,
  false, true]

/-- Occupancy bitmap `LEFT_L_90` from the source. -/
def LEFT_L_90 : List Bool := [
  false, false, true,
  true,  true,  true]

/-- Occupancy bitmap `LEFT_L_180` from the source. -/
def LEFT_L_180 : List Bool := [
  true,  false,
  true,  false,
  true,  true]

/-- Occupancy bitmap `LEFT_L_270` from the source. -/
def LEFT_L_270 : List Bool := [
  true,  true,  true,
  true,  false, false]

/-- Occupancy bitmap `RIGHT_L_0` from the source. -/
def RIGHT_L_0 : List Bool := [
  true, true,
  true, false,
  true, false]

/-- Occupancy bitmap `RIGHT_L_90` from the source. -/
def RIGHT_L_90 : List Bool := [
  true,  true,  true,
  false, false, true]

/-- Occupancy bitmap `RIGHT_L_180` from the source. -/
def RIGHT_L_180 : List Bool := [
  false, true,
  false, true,
  true,  true]

/-- Occupancy bitmap `RIGHT_L_270` from the source. -/
def RIGHT_L_270 : List Bool := [
  true,  false, false,
  true,  true,  true]

/-- Occupancy bitmap `LEFT_ZIGZAG_HORIZONTAL` from the source. -/
def LEFT_ZIGZAG_HORIZONTAL : List Bool := [
  false, true, true,
  true,  true, false]

/-- Occupancy bitmap `LEFT_ZIGZAG_VERTICAL` from the source. -/
def LEFT_ZIGZAG_VERTICAL : List Bool := [
  true,  false,
  true,  true,
  false, true]

/-- Occupancy bitmap `RIGHT_ZIGZAG_HORIZONTAL` from the source. -/
def RIGHT_ZIGZAG_HORIZONTAL : List Bool := [
  true,  true, false,
  false, true, true]

/-- Occupancy bitmap `RIGHT_ZIGZAG_VERTICAL` from the source. -/
def RIGHT_ZIGZAG_VERTICAL : List Bool := [
  false, true,
  true,  true,
  true,  false]

/-- Occupancy bitmap `PYRAMID_0` from the source. -/
def PYRAMID_0 : List Bool := [
  false, true,  false,
  true,  true,  true]

/-- Occupancy bitmap `PYRAMID_90` from the source. -/
def PYRAMID_90 : List Bool := [
  true,  false,
  true,  true,
  true,  false]

/-- Occupancy bitmap `PYRAMID_180` from the source. -/
def PYRAMID_180 : List Bool := [
  true,  true,  true,
  false, true,  false]

/-- Occupancy bitmap `PYRAMID_270` from the source. -/
def PYRAMID_270 : List Bool := [
  false, true,
  true,  true,
  false, true]

namespace Figure

/-- Spawn offset from the top center, from `Figure::offset_from_top_center`. -/
def offsetFromTopCenter : Figure → Int × Int
  | .Cube => (-1, 0)
  | .LineHorizontal => (-2, 0)
  | .LineVertical => (0, 0)
  | .LeftL0 => (-1, 0)
  | .LeftL90 => (-2, 0)
  | .LeftL180 => (-1, 0)
  | .LeftL270 => (-2, 0)
  | .RightL0 => (-1, 0)
  | .RightL90 => (-2, 0)
  | .RightL180 => (-1, 0)
  | .RightL270 => (-2, 0)
  | .LeftZigzagHorizontal => (-1, 0)
  | .LeftZigzagVertical => (-1, 0)
  | .RightZigzagHorizontal => (-1, 0)
  | .RightZigzagVertical => (-1, 0)
  | .Pyramid0 => (-1, 0)
  | .Pyramid90 => (-1, 0)
  | .Pyramid180 => (-1, 0)
  | .Pyramid270 => (-1, 0)

/-- Bounding-box dimensions (width, height), from `Figure::dimensions`. -/
def dimensions : Figure → Nat × Nat
  | .Cube => (2, 2)
  | .LineHorizontal => (4, 1)
  | .LineVertical => (1, 4)
  | .LeftL0 => (2, 3)
  | .LeftL90 => (3, 2)
  | .LeftL180 => (2, 3)
  | .LeftL270 => (3, 2)
  | .RightL0 => (2, 3)
  | .RightL90 => (3, 2)
  | .RightL180 => (2, 3)
  | .RightL270 => (3, 2)
  | .LeftZigzagHorizontal => (3, 2)
  | .LeftZigzagVertical => (2, 3)
  | .RightZigzagHorizontal => (3, 2)
  | .RightZigzagVertical => (2, 3)
  | .Pyramid0 => (3, 2)
  | .Pyramid90 => (2, 3)
  | .Pyramid180 => (3, 2)
  | .Pyramid270 => (2, 3)

/-- Display color, from `Figure::color`. -/
def color : Figure → TetrisCellColor
  | .Cube => .Red
  | .LineHorizontal => .Orange
  | .LineVertical => .Orange
  | .LeftL0 => .Yellow
  | .LeftL90 => .Yellow
  | .LeftL180 => .Yellow
  | .LeftL270 => .Yellow
  | .RightL0 => .Green
  | .RightL90 => .Green
  | .RightL180 => .Green
  | .RightL270 => .Green
  | .LeftZigzagHorizontal => .Blue
  | .LeftZigzagVertical => .Blue
  | .RightZigzagHorizontal => .DeepBlue
  | .RightZigzagVertical => .DeepBlue
  | .Pyramid0 => .Purple
  | .Pyramid90 => .Purple
  | .Pyramid180 => .Purple
  | .Pyramid270 => .Purple

/-- Occupancy bitmap lookup, from `Figure::bitmap`. -/
def bitmap : Figure → List Bool
  | .Cube => CUBE_CELLS
  | .LineHorizontal => LINE_HORIZONTAL
  | .LineVertical => LINE_VERTICAL
  | .LeftL0 => LEFT_L_0
  | .LeftL90 => LEFT_L_90
  | .LeftL180 => LEFT_L_180
  | .LeftL270 => LEFT_L_270
  | .RightL0 => RIGHT_L_0
  | .RightL90 => RIGHT_L_90
  | .RightL180 => RIGHT_L_180
  | .RightL270 => RIGHT_L_270
  | .LeftZigzagHorizontal => LEFT_ZIGZAG_HORIZONTAL
  | .LeftZigzagVertical => LEFT_ZIGZAG_VERTICAL
  | .RightZigzagHorizontal => RIGHT_ZIGZAG_HORIZONTAL
  | .RightZigzagVertical => RIGHT_ZIGZAG_VERTICAL
  | .Pyramid0 => PYRAMID_0
  | .Pyramid90 => PYRAMID_90
  | .Pyramid180 => PYRAMID_180
  | .Pyramid270 => PYRAMID_270

/-- Clockwise-rotation successor and anchor translation offset,
from `Figure::rotate_clockwise`. -/
def rotateClockwise : Figure → (Int × Int) × Figure
  | .Cube => ((0, 0), .Cube)
  | .LineHorizontal => ((2, -2), .LineVertical)
  | .LineVertical => ((-2, 2), .LineHorizontal)
  | .LeftL0 => ((0, 0), .LeftL90)
  | .LeftL90 => ((0, 0), .LeftL180)
  | .LeftL180 => ((0, 0), .LeftL270)
  | .LeftL270 => ((0, 0), .LeftL0)
  | .RightL0 => ((0, 0), .RightL90)
  | .RightL90 => ((0, 0), .RightL180)
  | .RightL180 => ((0, 0), .RightL270)
  | .RightL270 => ((0, 0), .RightL0)
  | .LeftZigzagHorizontal => ((0, 0), .LeftZigzagVertical)
  | .LeftZigzagVertical => ((0, 0), .LeftZigzagHorizontal)
  | .RightZigzagHorizontal => ((0, 0), .RightZigzagVertical)
  | .RightZigzagVertical => ((0, 0), .RightZigzagHorizontal)
  | .Pyramid0 => ((0, 0), .Pyramid90)
  | .Pyramid90 => ((0, 0), .Pyramid180)
  | .Pyramid180 => ((0, 0), .Pyramid270)
  | .Pyramid270 => ((0, 0), .Pyramid0)

end Figure

/-- Game input events consumed by `TetrisGame::handle_event`. -/
inductive GameInputEvent where
  | RotateClockwise
  | MoveLeft
  | MoveRight
  | MoveDown
  | Timer
  deriving DecidableEq, Repr

/-- Engine state: the locked grid (`TetrisCellScreen.cells`), the active piece
(`TetrisCellScreen._figure`) and its cached color overlay
(`TetrisCellScreen._figure_layer`). -/
structure GameState where
  cells : Cells
  figure : Option (Point × TetrisCellColor × Figure)
  figureLayer : Cells
  deriving DecidableEq, Repr

/-- Installs or replaces the active piece, rebuilding the cached overlay only
when color or shape changed, from `TetrisCellScreen::set_figure`. -/
def setFigure (s : GameState) (p : Point) (c : TetrisCellColor) (f : Figure) : GameState :=
  let layer :=
    match s.figure with
    | some (_, oldColor, oldFigure) =>
      if oldColor = c ∧ oldFigure = f then s.figureLayer
      else f.bitmap.map fun flag => if flag then some c else none
    | none => f.bitmap.map fun flag => if flag then some c else none
  { s with figure := some (p, c, f), figureLayer := layer }

/-- Occupancy collision predicate, from `TetrisGame::_figure_overlaps_cells`:
a bitmap-occupied cell of the figure placed at `p` coincides with a locked
(non-empty) board cell. -/
def figureOverlapsCells (cells : Cells) (p : Point) (f : Figure) : Bool :=
  (List.range f.dimensions.2).any fun yy =>
    (List.range f.dimensions.1).any fun xx =>
      f.bitmap.getD (yy * f.dimensions.1 + xx) false &&
      (cells.getD ((p.y + yy) * CELL_COUNT_X + (p.x + xx)) none).isSome

/-- One move left, from `TetrisGame::move_figure_left`. -/
def moveFigureLeft (s : GameState) : GameState :=
  match s.figure with
  | none => s
  | some (p, c, f) =>
    if 0 < p.x then
      if figureOverlapsCells s.cells ⟨p.x - 1, p.y⟩ f then s
      else setFigure s ⟨p.x - 1, p.y⟩ c f
    else s

/-- One move right, from `TetrisGame::move_figure_right`. -/
def moveFigureRight (s : GameState) : GameState :=
  match s.figure with
  | none => s
  | some (p, c, f) =>
    if p.x < CELL_COUNT_X - f.dimensions.1 then
      if figureOverlapsCells s.cells ⟨p.x + 1, p.y⟩ f then s
      else setFigure s ⟨p.x + 1, p.y⟩ c f
    else s

/-- Inner merge loop of the grounding branch of `_try_move_figure_down`:
iterations `xx = 0, …, n-1` over bounding-box row `yy` (stride `w`) write the
cached overlay cell into the board, skipping transparent overlay entries
(running `n+1` iterations is running `n` iterations and then the body at
`xx = n`). -/
def mergeRowN (layer : Cells) (yy w : Nat) (p : Point) : Nat → Cells → Cells
  | 0, cs => cs
  | n + 1, cs =>
    match layer.getD (yy * w + n) none with
    | some c => (mergeRowN layer yy w p n cs).set
        ((p.y + yy) * CELL_COUNT_X + (p.x + n)) (some c)
    | none => mergeRowN layer yy w p n cs

/-- Outer merge loop of the grounding branch of `_try_move_figure_down`:
rows `yy = 0, …, m-1` of the bounding box are merged in order. -/
def mergeRowsN (layer : Cells) (w : Nat) (p : Point) : Nat → Cells → Cells
  | 0, cs => cs
  | m + 1, cs => mergeRowN layer m w p w (mergeRowsN layer w p m cs)

/-- Merging of the cached figure overlay into the board at anchor `p`
(the grounding loop of `TetrisGame::_try_move_figure_down`): for
`y in p.y .. p.y+h` and `x in p.x .. p.x+w`, the next overlay entry is
written to board cell `(x, y)` when it is opaque. -/
def mergeFigureLayer (cells : Cells) (p : Point) (w h : Nat) (layer : Cells) : Cells :=
  mergeRowsN layer w p h cells

/-- One soft-drop step, from `TetrisGame::_try_move_figure_down`:
advance the piece one row if there is room and no collision, otherwise
merge the overlay into the board; returns whether the piece advanced. -/
def tryMoveFigureDown (s : GameState) : GameState × Bool :=
  match s.figure with
  | none => (s, false)
  | some (p, c, f) =>
    let canGoDown := decide (p.y + f.dimensions.2 < CELL_COUNT_Y) &&
      ! figureOverlapsCells s.cells ⟨p.x, p.y + 1⟩ f
    if canGoDown then
      (setFigure s ⟨p.x, p.y + 1⟩ c f, true)
    else
      ({ s with cells := mergeFigureLayer s.cells p f.dimensions.1 f.dimensions.2 s.figureLayer },
       false)

/-- Fuel-indexed hard-drop loop; `CELL_COUNT_Y` fuel always suffices because
each successful step strictly increases the anchor row, which stays below
`CELL_COUNT_Y`. -/
def moveFigureDownAux : Nat → GameState → GameState
  | 0, s => s
  | fuel + 1, s =>
    let r := tryMoveFigureDown s
    if r.2 then moveFigureDownAux fuel r.1 else r.1

/-- Hard drop, from `TetrisGame::move_figure_down`:
`while self._try_move_figure_down() {}`. -/
def moveFigureDown (s : GameState) : GameState :=
  moveFigureDownAux CELL_COUNT_Y s

/-- Clockwise rotation of the active piece, from `TetrisGame::rotate_clockwise`:
the new anchor is the old anchor plus the catalog offset, clamped into the
board, and the rotated placement is installed unconditionally. -/
def rotateClockwise (s : GameState) : GameState :=
  match s.figure with
  | none => s
  | some (p, c, f) =>
    let od := f.rotateClockwise
    let newX := (max 0 ((p.x : Int) + od.1.1)).toNat
    let newY := (max 0 ((p.y : Int) + od.1.2)).toNat
    let newX := min newX (CELL_COUNT_X - od.2.dimensions.1)
    let newY := min newY (CELL_COUNT_Y - od.2.dimensions.2)
    setFigure s ⟨newX, newY⟩ c od.2

/-- Row fullness check: every cell of row `line` is non-empty
(the first scan of `TetrisGame::remove_filled_lines`). -/
def isFilledRow (cells : Cells) (line : Nat) : Bool :=
  (List.range CELL_COUNT_X).all fun xx =>
    (cells.getD (line * CELL_COUNT_X + xx) none).isSome

/-- Models `while filled_lines.pop().unwrap() { offset += dim.0 }`: pops
entries from the top of the (reversed) fullness stack while they are true,
also consuming the first false entry; returns the remaining stack and the
number of popped true entries.  (On an empty stack the source would panic;
that is unreachable unless every remaining row is full.) -/
def popRun : List Bool → List Bool × Nat
  | [] => ([], 0)
  | b :: rest => if b then ((popRun rest).1, (popRun rest).2 + 1) else (rest, 0)

/-- One row of the compaction loop of `remove_filled_lines`: positions
`rowStart+9` down to `rowStart` are rewritten from `offset` cells earlier in
scan order (or emptied), unless `offset` is zero. -/
def writeRow (cells : Cells) (rowStart offset : Nat) : Cells :=
  if offset = 0 then cells
  else (List.range CELL_COUNT_X).foldl (fun cs j =>
    let pos := rowStart + (CELL_COUNT_X - 1) - j
    cs.set pos (if offset ≤ pos then cs.getD (pos - offset) none else none)) cells

/-- Main compaction loop of `remove_filled_lines`, iterating `line` from
`CELL_COUNT_Y` down to 1; when `line` equals the remaining stack length the
bottom-of-stack run of full rows is consumed into `offset`. -/
def compactAux : Nat → Cells → List Bool → Nat → Cells
  | 0, cells, _, _ => cells
  | n + 1, cells, stack, offset =>
    let su :=
      if n + 1 = stack.length then
        ((popRun stack).1, offset + CELL_COUNT_X * (popRun stack).2)
      else (stack, offset)
    compactAux n (writeRow cells (n * CELL_COUNT_X) su.2) su.1 su.2

/-- Line-clear compaction on the raw grid, from `TetrisGame::remove_filled_lines`. -/
def removeFilledLinesCells (cells : Cells) : Cells :=
  let filled := (List.range CELL_COUNT_Y).map fun line => isFilledRow cells line
  if filled.any id then compactAux CELL_COUNT_Y cells filled.reverse 0 else cells

/-- Line-clear compaction lifted to the engine state. -/
def removeFilledLines (s : GameState) : GameState :=
  { s with cells := removeFilledLinesCells s.cells }

/-- Spawn anchor of a figure, from `TetrisGame::create_new_figure`:
`(dim.0 as isize / 2 + offset.0) as usize` and `offset.1 as usize`. -/
def spawnPoint (f : Figure) : Point :=
  ⟨((CELL_COUNT_X : Int) / 2 + f.offsetFromTopCenter.1).toNat,
   f.offsetFromTopCenter.2.toNat⟩

/-- Spawning of a freshly drawn figure, from `TetrisGame::create_new_figure`;
the drawn figure is passed explicitly in place of the `rand` call.  Returns
false (game over) without touching the grid when the spawn position already
overlaps locked cells. -/
def createNewFigure (s : GameState) (f : Figure) : GameState × Bool :=
  let s1 : GameState := { s with figure := none }
  if figureOverlapsCells s1.cells (spawnPoint f) f then (s1, false)
  else (setFigure s1 (spawnPoint f) f.color f, true)

/-- Event dispatch, from `TetrisGame::handle_event`; `newFig` is the figure
the random generator would produce if a respawn happens.  Returns false
exactly when a respawn was attempted and failed (game over). -/
def handleEvent (s : GameState) (e : GameInputEvent) (newFig : Figure) : GameState × Bool :=
  let step : GameState × Bool :=
    match e with
    | .Timer =>
      ((tryMoveFigureDown s).1, ! (tryMoveFigureDown s).2)
    | .MoveLeft => (if s.figure.isSome then moveFigureLeft s else s, false)
    | .MoveRight => (if s.figure.isSome then moveFigureRight s else s, false)
    | .MoveDown => (if s.figure.isSome then moveFigureDown s else s, true)
    | .RotateClockwise => (if s.figure.isSome then rotateClockwise s else s, false)
  if step.2 then createNewFigure (removeFilledLines step.1) newFig
  else (step.1, true)

/-- Game-event processing of `TetrisGame::run`: events are handled only while
the `running` flag is set; a false result from `handle_event` clears it,
after which game events no longer touch the state. -/
def runEvents : GameState → Bool → List (GameInputEvent × Figure) → GameState × Bool
  | s, running, [] => (s, running)
  | s, running, ev :: rest =>
    if running then
      runEvents (handleEvent s ev.1 ev.2).1 (handleEvent s ev.1 ev.2).2 rest
    else runEvents s running rest

/-- No locked board cell coincides with a bitmap-occupied cell of the active
piece (the no-overlap invariant of the spec, section 8). -/
def noOverlapB (s : GameState) : Bool :=
  match s.figure with
  | none => true
  | some (p, _, f) => ! figureOverlapsCells s.cells p f

/-- The active piece's anchor plus bounding box stays inside the grid
(the boundary invariant of the spec, section 8). -/
def inBoundsB (s : GameState) : Bool :=
  match s.figure with
  | none => true
  | some (p, _, f) =>
    decide (p.x + f.dimensions.1 ≤ CELL_COUNT_X) &&
    decide (p.y + f.dimensions.2 ≤ CELL_COUNT_Y)

/-- Iterated catalog rotation. -/
def rotN : Nat → Figure → Figure
  | 0, f => f
  | n + 1, f => rotN n f.rotateClockwise.2

/-- Rotation-cycle length of each shape family as the claim classifies them:
1 for the cube, 2 for the line pair and the zigzag pairs, 4 for the L-mirror
and pyramid families. -/
def cycleLength : Figure → Nat
  | .Cube => 1
  | .LineHorizontal => 2
  | .LineVertical => 2
  | .LeftZigzagHorizontal => 2
  | .LeftZigzagVertical => 2
  | .RightZigzagHorizontal => 2
  | .RightZigzagVertical => 2
  | _ => 4

/-- Auto-drop period as a function of the number of pieces spawned so far.
The timer callback in `TetrisGame::run` returns `PERIOD_MS` unconditionally
(and the pause handler re-adds the timer with `PERIOD_MS`), so the period is
independent of any game state, in particular of the spawn count. -/
def gravityPeriodAfterSpawns (_n : Nat) : Nat := PERIOD_MS

/-- Specification-side pointwise description of grounding (C5, from the spec's
words): the board cell at `(x, y)` after the merge is the overlay cell's color
when `(x, y)` lies under an opaque overlay cell, and the previous board value
otherwise. -/
def groundMergeSpec (cells : Cells) (p : Point) (w h : Nat) (layer : Cells)
    (x y : Nat) : Option (Option TetrisCellColor) :=
  if p.x ≤ x ∧ x < p.x + w ∧ p.y ≤ y ∧ y < p.y + h then
    match layer.getD ((y - p.y) * w + (x - p.x)) none with
    | some col => some (some col)
    | none => cells[y * CELL_COUNT_X + x]?
  else cells[y * CELL_COUNT_X + x]?

/-- A 10x16 board whose rows 13 and 15 are completely full (red) and whose
other rows are empty: two full rows that are not contiguous. -/
def badBoardC1 : Cells := (List.range 160).map fun i =>
  if (130 ≤ i ∧ i < 140) ∨ 150 ≤ i then some .Red else none

/-- A board whose bottom two rows are full except for a gap in column 5. -/
def gapBoardCells : Cells := (List.range 160).map fun i =>
  if 140 ≤ i ∧ i % 10 ≠ 5 then some .Red else none

/-- A state with a vertical line piece sitting in the column-5 gap of
`gapBoardCells`, about to be rotated. -/
def gapState : GameState :=
  ⟨gapBoardCells, some (⟨5, 12⟩, .Orange, .LineVertical),
   List.replicate 4 (some .Orange)⟩

/-- A board whose top four rows are completely full. -/
def toppedOutCells : Cells := (List.range 160).map fun i =>
  if i < 40 then some .Red else none

/-- A state on `toppedOutCells` whose next spawn must fail. -/
def toppedOutState : GameState :=
  ⟨toppedOutCells, some (⟨4, 12⟩, .Red, .Cube), List.replicate 4 (some .Red)⟩

/-- An empty board with a cube resting on the floor, about to ground. -/
def floorCubeState : GameState :=
  ⟨(List.range 160).map (fun _ => none), some (⟨4, 14⟩, .Red, .Cube),
   List.replicate 4 (some .Red)⟩

/-! Theorems. -/

/-- C1: the line-clear compaction does NOT remove all full rows simultaneously
for every board configuration.  On the board with exactly rows 13 and 15 full
(non-contiguous), the compaction leaves row 14 of the result completely full:
the old full row 13 is copied down one row instead of being removed. -/
theorem c1_nonadjacent_full_rows_bug :
    isFilledRow badBoardC1 13 = true ∧
    isFilledRow badBoardC1 14 = false ∧
    isFilledRow badBoardC1 15 = true ∧
    removeFilledLinesCells badBoardC1 =
      (List.range 160).map
        (fun i => if 140 ≤ i ∧ i < 150 then some TetrisCellColor.Red else none) ∧
    isFilledRow (removeFilledLinesCells badBoardC1) 14 = true := by
  refine ⟨by decide, by decide, by decide, by decide, by decide⟩

/-- C8: catalog rotation cycles are closed with the claimed cycle lengths
(1 for the cube, 2 for the line pair and the zigzag pairs, 4 for the L-mirror
and pyramid families), the cycle lengths are minimal, and the line pair
carries the non-zero translation offsets. -/
theorem c8_rotation_cycles :
    (∀ f : Figure, rotN (cycleLength f) f = f) ∧
    (∀ f : Figure, ∀ k : Nat, 0 < k → k < cycleLength f → rotN k f ≠ f) ∧
    Figure.rotateClockwise .LineHorizontal = ((2, -2), .LineVertical) ∧
    Figure.rotateClockwise .LineVertical = ((-2, 2), .LineHorizontal) := by
  refine ⟨fun f => by cases f <;> rfl, fun f k hk1 hk2 => ?_, rfl, rfl⟩
  cases f <;> simp only [cycleLength] at hk2 <;> interval_cases k <;> decide

/-- Witness for C8 at a concrete input: one clockwise rotation of `LeftL0`
does not return to `LeftL0` (the 4-cycle is not shorter). -/
theorem c8_rotation_cycles_witness : rotN 1 Figure.LeftL0 ≠ Figure.LeftL0 :=
  c8_rotation_cycles.2.1 Figure.LeftL0 1 (by decide) (by decide)

/-- C10: the clockwise-rotation successor of every shape variant has the same
display color as the variant itself. -/
theorem c10_rotation_preserves_color :
    ∀ f : Figure, f.rotateClockwise.2.color = f.color := by
  intro f; cases f <;> rfl

/-- C9 counterexample: no spawn-count milestone interval and fraction strictly
below one exist such that crossing each milestone multiplies the auto-drop
period by that fraction — the period is the same at every milestone. -/
theorem c9_no_speedup_counterexample :
    ¬ ∃ m num den : Nat, 0 < m ∧ 0 < num ∧ num < den ∧
      ∀ k : Nat, gravityPeriodAfterSpawns ((k + 1) * m) * den =
        gravityPeriodAfterSpawns (k * m) * num := by
  rintro ⟨m, num, den, hm, hnum, hlt, h⟩
  have h0 := h 0
  simp only [gravityPeriodAfterSpawns, PERIOD_MS] at h0
  omega

/-- C9 as amended: the auto-drop period is the constant `PERIOD_MS` (333 ms)
regardless of how many pieces have spawned; there is no difficulty ramp. -/
theorem c9_amended_constant_period :
    ∀ n : Nat, gravityPeriodAfterSpawns n = 333 := fun _ => rfl

/-- C2 counterexample: from a state satisfying both invariants (a vertical
line in a one-column slot of an otherwise full bottom region), the
rotate-clockwise operation installs the rotated piece on top of locked cells:
the no-overlap invariant is violated after the operation. -/
theorem c2_rotation_breaks_no_overlap :
    noOverlapB gapState = true ∧ inBoundsB gapState = true ∧
    noOverlapB (handleEvent gapState GameInputEvent.RotateClockwise Figure.Cube).1
      = false := by
  refine ⟨by decide, by decide, by decide⟩

/-- C4: the soft-drop step returns true exactly when
`anchor.y + shape_height < board_height` (strict) and the collision predicate
reports no overlap one row below; on true the piece advances exactly one row
with the board untouched, on false the piece's position is unchanged and the
overlay is merged into the board at the current position. -/
theorem c4_soft_drop_step (s : GameState) (p : Point) (c : TetrisCellColor)
    (f : Figure) (hfig : s.figure = some (p, c, f)) :
    ((tryMoveFigureDown s).2 = true ↔
      p.y + f.dimensions.2 < CELL_COUNT_Y ∧
      figureOverlapsCells s.cells ⟨p.x, p.y + 1⟩ f = false) ∧
    ((tryMoveFigureDown s).2 = true →
      (tryMoveFigureDown s).1.figure = some (⟨p.x, p.y + 1⟩, c, f) ∧
      (tryMoveFigureDown s).1.cells = s.cells) ∧
    ((tryMoveFigureDown s).2 = false →
      (tryMoveFigureDown s).1.figure = some (p, c, f) ∧
      (tryMoveFigureDown s).1.cells =
        mergeFigureLayer s.cells p f.dimensions.1 f.dimensions.2 s.figureLayer) := by
  obtain ⟨cells, fig, layer⟩ := s
  simp only at hfig
  subst hfig
  cases hgd : decide (p.y + f.dimensions.2 < CELL_COUNT_Y) &&
      ! figureOverlapsCells cells ⟨p.x, p.y + 1⟩ f
  case false =>
    simp only [tryMoveFigureDown, hgd, Bool.false_eq_true, if_false]
    refine ⟨?_, ?_, ?_⟩
    · simp only [Bool.false_eq_true, false_iff]
      rintro ⟨h1, h2⟩
      simp [h1, h2] at hgd
    · simp
    · simp [mergeFigureLayer]
  case true =>
    have h12 : p.y + f.dimensions.2 < CELL_COUNT_Y ∧
        figureOverlapsCells cells ⟨p.x, p.y + 1⟩ f = false := by
      simpa [Bool.and_eq_true, decide_eq_true_eq, Bool.not_eq_true'] using hgd
    simp only [tryMoveFigureDown, hgd, eq_self_iff_true, if_true]
    refine ⟨?_, ?_, ?_⟩
    · simpa using h12
    · intro
      simp [setFigure]
    · simp

/-- Witness for C4: the cube resting on the floor cannot advance (it grounds),
matching the advance condition at the concrete state. -/
theorem c4_soft_drop_step_witness :
    (tryMoveFigureDown floorCubeState).2 = true ↔
      14 + Figure.Cube.dimensions.2 < CELL_COUNT_Y ∧
      figureOverlapsCells floorCubeState.cells ⟨4, 15⟩ Figure.Cube = false :=
  (c4_soft_drop_step floorCubeState ⟨4, 14⟩ .Red .Cube rfl).1

/-- C7: rotate-clockwise looks up the successor and translation offset, clamps
the translated anchor into `[0, width - new_width] x [0, height - new_height]`,
keeps the color and the board, and installs the rotated placement
unconditionally (no occupancy collision re-check appears as a hypothesis or a
guard). -/
theorem c7_rotate_clamps_and_installs_unconditionally (s : GameState)
    (p : Point) (c : TetrisCellColor) (f : Figure)
    (hfig : s.figure = some (p, c, f)) :
    (rotateClockwise s).cells = s.cells ∧
    (rotateClockwise s).figure = some
      (⟨min ((max 0 ((p.x : Int) + f.rotateClockwise.1.1)).toNat)
            (CELL_COUNT_X - f.rotateClockwise.2.dimensions.1),
        min ((max 0 ((p.y : Int) + f.rotateClockwise.1.2)).toNat)
            (CELL_COUNT_Y - f.rotateClockwise.2.dimensions.2)⟩,
       c, f.rotateClockwise.2) := by
  obtain ⟨cells, fig, layer⟩ := s
  simp only at hfig
  subst hfig
  simp [rotateClockwise, setFigure]

/-- Witness for C7: rotating the vertical line at (5, 12) installs the
horizontal line at the clamped anchor, on the unchanged board. -/
theorem c7_rotate_witness :
    (rotateClockwise gapState).cells = gapState.cells ∧
    (rotateClockwise gapState).figure = some
      (⟨min ((max 0 ((5 : Int) + Figure.LineVertical.rotateClockwise.1.1)).toNat)
            (CELL_COUNT_X - Figure.LineVertical.rotateClockwise.2.dimensions.1),
        min ((max 0 ((12 : Int) + Figure.LineVertical.rotateClockwise.1.2)).toNat)
            (CELL_COUNT_Y - Figure.LineVertical.rotateClockwise.2.dimensions.2)⟩,
       .Orange, Figure.LineVertical.rotateClockwise.2) :=
  c7_rotate_clamps_and_installs_unconditionally gapState ⟨5, 12⟩ .Orange
    .LineVertical rfl

/-- C6: when the freshly drawn figure overlaps locked cells at its spawn
anchor, spawning returns false (game over) as an ordinary result, removes the
active piece, and leaves every locked board cell untouched; and once the run
loop's running flag is cleared, game events no longer change the state. -/
theorem c6_spawn_overlap_is_game_over (s : GameState) (f : Figure)
    (s2 : GameState) (evs : List (GameInputEvent × Figure))
    (hov : figureOverlapsCells s.cells (spawnPoint f) f = true) :
    (createNewFigure s f).2 = false ∧
    (createNewFigure s f).1.cells = s.cells ∧
    (createNewFigure s f).1.figure = none ∧
    runEvents s2 false evs = (s2, false) := by
  refine ⟨by simp [createNewFigure, hov], by simp [createNewFigure, hov],
    by simp [createNewFigure, hov], ?_⟩
  induction evs with
  | nil => rfl
  | cons e rest ih => simpa [runEvents] using ih

/-- Witness for C6: on the topped-out board the cube's spawn cell is occupied,
so spawning reports game over with the board unchanged, and the stopped loop
ignores a further gravity tick. -/
theorem c6_spawn_overlap_is_game_over_witness :
    (createNewFigure toppedOutState Figure.Cube).2 = false ∧
    (createNewFigure toppedOutState Figure.Cube).1.cells = toppedOutState.cells ∧
    (createNewFigure toppedOutState Figure.Cube).1.figure = none ∧
    runEvents toppedOutState false [(GameInputEvent.Timer, Figure.Cube)] =
      (toppedOutState, false) :=
  c6_spawn_overlap_is_game_over toppedOutState Figure.Cube toppedOutState
    [(GameInputEvent.Timer, Figure.Cube)] (by decide)

/-- Helper: a spawn attempt always leaves a state satisfying the no-overlap
invariant — either no piece was installed, or the installed piece passed the
collision predicate. -/
theorem createNewFigure_noOverlap (s : GameState) (g : Figure) :
    noOverlapB (createNewFigure s g).1 = true := by
  simp only [createNewFigure]
  split
  · rfl
  next h =>
    have h2 : figureOverlapsCells s.cells (spawnPoint g) g = false := by
      cases hh : figureOverlapsCells s.cells (spawnPoint g) g
      · rfl
      · exact absurd hh h
    simp [noOverlapB, setFigure, h2]

/-- Helper: a successful soft-drop step leaves a state satisfying the
no-overlap invariant, because the advance was guarded by the collision
predicate. -/
theorem tryMoveFigureDown_noOverlap (s : GameState)
    (h : (tryMoveFigureDown s).2 = true) :
    noOverlapB (tryMoveFigureDown s).1 = true := by
  obtain ⟨cells, fig, layer⟩ := s
  cases fig with
  | none => simp [tryMoveFigureDown] at h
  | some pcf =>
    obtain ⟨p, c, f⟩ := pcf
    cases hgd : decide (p.y + f.dimensions.2 < CELL_COUNT_Y) &&
        ! figureOverlapsCells cells ⟨p.x, p.y + 1⟩ f
    · simp [tryMoveFigureDown, hgd] at h
    · have h12 := hgd
      simp only [Bool.and_eq_true, decide_eq_true_eq, Bool.not_eq_true'] at h12
      simp [tryMoveFigureDown, hgd, setFigure, noOverlapB, h12.1, h12.2]

/-- Helper: moving left preserves the no-overlap invariant. -/
theorem moveFigureLeft_noOverlap (s : GameState)
    (hpre : noOverlapB s = true) : noOverlapB (moveFigureLeft s) = true := by
  obtain ⟨cells, fig, layer⟩ := s
  cases fig with
  | none => exact hpre
  | some pcf =>
    obtain ⟨p, c, f⟩ := pcf
    simp only [moveFigureLeft]
    split
    · split
      next => exact hpre
      next hov =>
        have h2 : figureOverlapsCells cells ⟨p.x - 1, p.y⟩ f = false := by
          cases hh : figureOverlapsCells cells ⟨p.x - 1, p.y⟩ f
          · rfl
          · exact absurd hh hov
        simp [setFigure, noOverlapB, h2]
    · exact hpre

/-- Helper: moving right preserves the no-overlap invariant. -/
theorem moveFigureRight_noOverlap (s : GameState)
    (hpre : noOverlapB s = true) : noOverlapB (moveFigureRight s) = true := by
  obtain ⟨cells, fig, layer⟩ := s
  cases fig with
  | none => exact hpre
  | some pcf =>
    obtain ⟨p, c, f⟩ := pcf
    simp only [moveFigureRight]
    split
    · split
      next => exact hpre
      next hov =>
        have h2 : figureOverlapsCells cells ⟨p.x + 1, p.y⟩ f = false := by
          cases hh : figureOverlapsCells cells ⟨p.x + 1, p.y⟩ f
          · rfl
          · exact absurd hh hov
        simp [setFigure, noOverlapB, h2]
    · exact hpre

/-- C2 as amended: after every engine operation except rotate-clockwise
(move left, move right, hard drop, gravity tick — each including the
line-clear and checked respawn it triggers on grounding), a state satisfying
the no-overlap invariant still satisfies it: no locked cell coincides with an
active-piece cell. -/
theorem c2_amended_no_overlap_preserved (s : GameState) (e : GameInputEvent)
    (g : Figure) (hpre : noOverlapB s = true)
    (hne : e ≠ GameInputEvent.RotateClockwise) :
    noOverlapB (handleEvent s e g).1 = true := by
  cases e
  case RotateClockwise => exact absurd rfl hne
  case MoveLeft =>
    simp only [handleEvent, Bool.false_eq_true, if_false]
    split
    · exact moveFigureLeft_noOverlap s hpre
    · exact hpre
  case MoveRight =>
    simp only [handleEvent, Bool.false_eq_true, if_false]
    split
    · exact moveFigureRight_noOverlap s hpre
    · exact hpre
  case MoveDown =>
    simp only [handleEvent, eq_self_iff_true, if_true]
    exact createNewFigure_noOverlap _ g
  case Timer =>
    simp only [handleEvent]
    cases hmv : (tryMoveFigureDown s).2
    · simp only [hmv, Bool.not_false, eq_self_iff_true, if_true]
      exact createNewFigure_noOverlap _ g
    · simp only [hmv, Bool.not_true, Bool.false_eq_true, if_false]
      exact tryMoveFigureDown_noOverlap s hmv

/-- Witness for the amended C2: moving the vertical line left in the gap
state keeps the invariant. -/
theorem c2_amended_no_overlap_preserved_witness :
    noOverlapB (handleEvent gapState GameInputEvent.MoveLeft Figure.Cube).1
      = true :=
  c2_amended_no_overlap_preserved gapState GameInputEvent.MoveLeft Figure.Cube
    (by decide) (by decide)

/-- Helper: every catalog shape's bounding box fits inside the grid. -/
theorem dimensions_le (f : Figure) :
    f.dimensions.1 ≤ CELL_COUNT_X ∧ f.dimensions.2 ≤ CELL_COUNT_Y := by
  cases f <;> decide

/-- Helper: a spawn attempt always leaves a state satisfying the boundary
invariant — every spawn anchor plus bounding box fits inside the grid. -/
theorem createNewFigure_inBounds (s : GameState) (g : Figure) :
    inBoundsB (createNewFigure s g).1 = true := by
  simp only [createNewFigure]
  split
  · rfl
  · cases g <;> rfl

/-- Helper: rotation clamps the new anchor into the grid, so it always leaves
a state satisfying the boundary invariant. -/
theorem rotateClockwise_inBounds (s : GameState) (hs : s.figure.isSome = true) :
    inBoundsB (rotateClockwise s) = true := by
  obtain ⟨cells, fig, layer⟩ := s
  cases fig with
  | none => simp at hs
  | some pcf =>
    obtain ⟨p, c, f⟩ := pcf
    simp only [rotateClockwise, setFigure, inBoundsB, Bool.and_eq_true,
      decide_eq_true_eq]
    have hw := (dimensions_le f.rotateClockwise.2).1
    have hh := (dimensions_le f.rotateClockwise.2).2
    have h1 : min ((max 0 ((p.x : Int) + f.rotateClockwise.1.1)).toNat)
        (CELL_COUNT_X - f.rotateClockwise.2.dimensions.1) ≤
        CELL_COUNT_X - f.rotateClockwise.2.dimensions.1 := min_le_right _ _
    have h2 : min ((max 0 ((p.y : Int) + f.rotateClockwise.1.2)).toNat)
        (CELL_COUNT_Y - f.rotateClockwise.2.dimensions.2) ≤
        CELL_COUNT_Y - f.rotateClockwise.2.dimensions.2 := min_le_right _ _
    exact ⟨by omega, by omega⟩

/-- Helper: moving left preserves the boundary invariant. -/
theorem moveFigureLeft_inBounds (s : GameState)
    (hpre : inBoundsB s = true) : inBoundsB (moveFigureLeft s) = true := by
  obtain ⟨cells, fig, layer⟩ := s
  cases fig with
  | none => exact hpre
  | some pcf =>
    obtain ⟨p, c, f⟩ := pcf
    simp only [inBoundsB, Bool.and_eq_true, decide_eq_true_eq] at hpre
    simp only [moveFigureLeft]
    split
    · split
      next => simp [inBoundsB, hpre.1, hpre.2]
      next =>
        simp only [setFigure, inBoundsB, Bool.and_eq_true, decide_eq_true_eq]
        exact ⟨by omega, hpre.2⟩
    · simp [inBoundsB, hpre.1, hpre.2]

/-- Helper: moving right is guarded by the right-edge bound and preserves the
boundary invariant. -/
theorem moveFigureRight_inBounds (s : GameState)
    (hpre : inBoundsB s = true) : inBoundsB (moveFigureRight s) = true := by
  obtain ⟨cells, fig, layer⟩ := s
  cases fig with
  | none => exact hpre
  | some pcf =>
    obtain ⟨p, c, f⟩ := pcf
    simp only [inBoundsB, Bool.and_eq_true, decide_eq_true_eq] at hpre
    have hw := (dimensions_le f).1
    simp only [moveFigureRight]
    split
    next hx =>
      split
      next => simp [inBoundsB, hpre.1, hpre.2]
      next =>
        simp only [setFigure, inBoundsB, Bool.and_eq_true, decide_eq_true_eq]
        exact ⟨by omega, hpre.2⟩
    next => simp [inBoundsB, hpre.1, hpre.2]

/-- Helper: a soft-drop step preserves the boundary invariant: the advance is
guarded by the bottom-edge bound and grounding does not move the piece. -/
theorem tryMoveFigureDown_inBounds (s : GameState)
    (hpre : inBoundsB s = true) :
    inBoundsB (tryMoveFigureDown s).1 = true := by
  obtain ⟨cells, fig, layer⟩ := s
  cases fig with
  | none => exact hpre
  | some pcf =>
    obtain ⟨p, c, f⟩ := pcf
    simp only [inBoundsB, Bool.and_eq_true, decide_eq_true_eq] at hpre
    cases hgd : decide (p.y + f.dimensions.2 < CELL_COUNT_Y) &&
        ! figureOverlapsCells cells ⟨p.x, p.y + 1⟩ f
    · simp [tryMoveFigureDown, hgd, inBoundsB, hpre.1, hpre.2]
    · have h12 := hgd
      simp only [Bool.and_eq_true, decide_eq_true_eq, Bool.not_eq_true'] at h12
      simp only [tryMoveFigureDown, hgd, eq_self_iff_true, if_true, setFigure,
        inBoundsB, Bool.and_eq_true, decide_eq_true_eq]
      exact ⟨hpre.1, by omega⟩

/-- Helper: the hard-drop loop preserves the boundary invariant for any fuel. -/
theorem moveFigureDownAux_inBounds (n : Nat) (s : GameState)
    (hpre : inBoundsB s = true) :
    inBoundsB (moveFigureDownAux n s) = true := by
  induction n generalizing s with
  | zero => exact hpre
  | succ n ih =>
    simp only [moveFigureDownAux]
    split
    · exact ih _ (tryMoveFigureDown_inBounds s hpre)
    · exact tryMoveFigureDown_inBounds s hpre

/-- C3: every engine operation preserves the boundary invariant: the active
piece (if present) keeps its anchor plus bounding box inside
`[0, width) x [0, height)` (non-negativity is intrinsic to the `Nat`
coordinates, mirroring `usize`). -/
theorem c3_piece_stays_in_bounds (s : GameState) (e : GameInputEvent)
    (g : Figure) (hpre : inBoundsB s = true) :
    inBoundsB (handleEvent s e g).1 = true := by
  cases e
  case MoveLeft =>
    simp only [handleEvent, Bool.false_eq_true, if_false]
    split
    · exact moveFigureLeft_inBounds s hpre
    · exact hpre
  case MoveRight =>
    simp only [handleEvent, Bool.false_eq_true, if_false]
    split
    · exact moveFigureRight_inBounds s hpre
    · exact hpre
  case RotateClockwise =>
    simp only [handleEvent, Bool.false_eq_true, if_false]
    split
    next hs => exact rotateClockwise_inBounds s hs
    next => exact hpre
  case MoveDown =>
    simp only [handleEvent, eq_self_iff_true, if_true]
    exact createNewFigure_inBounds _ g
  case Timer =>
    simp only [handleEvent]
    cases hmv : (tryMoveFigureDown s).2
    · simp only [hmv, Bool.not_false, eq_self_iff_true, if_true]
      exact createNewFigure_inBounds _ g
    · simp only [hmv, Bool.not_true, Bool.false_eq_true, if_false]
      exact tryMoveFigureDown_inBounds s hpre

/-- Witness for C3: rotating the vertical line in the gap state keeps the
piece inside the grid (even though that rotation overlaps locked cells). -/
theorem c3_piece_stays_in_bounds_witness :
    inBoundsB (handleEvent gapState GameInputEvent.RotateClockwise
      Figure.Cube).1 = true :=
  c3_piece_stays_in_bounds gapState GameInputEvent.RotateClockwise Figure.Cube
    (by decide)

/-- Helper: the inner merge loop preserves the board length. -/
theorem mergeRowN_length (layer : Cells) (yy w : Nat) (p : Point) (n : Nat)
    (cs : Cells) : (mergeRowN layer yy w p n cs).length = cs.length := by
  induction n with
  | zero => rfl
  | succ n ih =>
    simp only [mergeRowN]
    cases hv : layer.getD (yy * w + n) none
    · simpa using ih
    · simpa [List.length_set] using ih

/-- Helper: the inner merge loop does not touch indices outside its row
segment. -/
theorem mergeRowN_getElem_ne (layer : Cells) (yy w : Nat) (p : Point)
    (n : Nat) (cs : Cells) (j : Nat)
    (hj : ∀ xx, xx < n → j ≠ (p.y + yy) * CELL_COUNT_X + (p.x + xx)) :
    (mergeRowN layer yy w p n cs)[j]? = cs[j]? := by
  induction n with
  | zero => rfl
  | succ n ih =>
    have hne : j ≠ (p.y + yy) * CELL_COUNT_X + (p.x + n) :=
      hj n (Nat.lt_succ_self n)
    simp only [mergeRowN]
    cases hv : layer.getD (yy * w + n) none
    · simp only
      exact ih fun xx hxx => hj xx (Nat.lt_succ_of_lt hxx)
    · simp only
      rw [List.getElem?_set_ne (Ne.symm hne)]
      exact ih fun xx hxx => hj xx (Nat.lt_succ_of_lt hxx)

/-- Helper: inside its row segment, the inner merge loop writes exactly the
opaque overlay entries. -/
theorem mergeRowN_getElem_eq (layer : Cells) (yy w : Nat) (p : Point)
    (n : Nat) (cs : Cells) (xx0 : Nat) (hx : xx0 < n)
    (hlen : (p.y + yy) * CELL_COUNT_X + (p.x + xx0) < cs.length) :
    (mergeRowN layer yy w p n cs)[(p.y + yy) * CELL_COUNT_X + (p.x + xx0)]? =
      match layer.getD (yy * w + xx0) none with
      | some c => some (some c)
      | none => cs[(p.y + yy) * CELL_COUNT_X + (p.x + xx0)]? := by
  induction n with
  | zero => omega
  | succ n ih =>
    simp only [mergeRowN]
    by_cases hxx : xx0 = n
    · subst hxx
      cases hv : layer.getD (yy * w + xx0) none
      · simp only
        exact mergeRowN_getElem_ne layer yy w p xx0 cs _
          fun xx hxxlt heq => by
            have := Nat.add_left_cancel heq
            omega
      · simp only
        rw [List.getElem?_set_eq_of_lt]
        rw [mergeRowN_length]
        exact hlen
    · have hlt : xx0 < n := by omega
      cases hv : layer.getD (yy * w + n) none
      · simp only
        exact ih hlt
      · simp only
        rw [List.getElem?_set_ne
          (fun heq => by have := Nat.add_left_cancel heq; omega)]
        exact ih hlt

/-- Helper: the outer merge loop preserves the board length. -/
theorem mergeRowsN_length (layer : Cells) (w : Nat) (p : Point) (m : Nat)
    (cs : Cells) : (mergeRowsN layer w p m cs).length = cs.length := by
  induction m with
  | zero => rfl
  | succ m ih =>
    simp only [mergeRowsN]
    rw [mergeRowN_length, ih]

/-- Helper: the outer merge loop does not touch indices outside the bounding
box's row segments. -/
theorem mergeRowsN_getElem_ne (layer : Cells) (w : Nat) (p : Point) (m : Nat)
    (cs : Cells) (j : Nat)
    (hj : ∀ yy xx, yy < m → xx < w →
      j ≠ (p.y + yy) * CELL_COUNT_X + (p.x + xx)) :
    (mergeRowsN layer w p m cs)[j]? = cs[j]? := by
  induction m with
  | zero => rfl
  | succ m ih =>
    simp only [mergeRowsN]
    rw [mergeRowN_getElem_ne layer m w p w _ j
      fun xx hxx => hj m xx (Nat.lt_succ_self m) hxx]
    exact ih fun yy xx hyy hxx => hj yy xx (Nat.lt_succ_of_lt hyy) hxx

/-- Helper: inside the bounding box, the merged board holds exactly the opaque
overlay entries, and the previous cell contents under transparent entries. -/
theorem mergeRowsN_getElem_eq (layer : Cells) (w : Nat) (p : Point) (m : Nat)
    (cs : Cells) (yy0 xx0 : Nat) (hy : yy0 < m) (hx : xx0 < w)
    (hw : p.x + w ≤ CELL_COUNT_X)
    (hlen : (p.y + yy0) * CELL_COUNT_X + (p.x + xx0) < cs.length) :
    (mergeRowsN layer w p m cs)[(p.y + yy0) * CELL_COUNT_X + (p.x + xx0)]? =
      match layer.getD (yy0 * w + xx0) none with
      | some c => some (some c)
      | none => cs[(p.y + yy0) * CELL_COUNT_X + (p.x + xx0)]? := by
  induction m with
  | zero => omega
  | succ m ih =>
    simp only [mergeRowsN]
    by_cases hyy : yy0 = m
    · subst hyy
      have hmidlen : (p.y + yy0) * CELL_COUNT_X + (p.x + xx0) <
          (mergeRowsN layer w p yy0 cs).length := by
        rw [mergeRowsN_length]; exact hlen
      rw [mergeRowN_getElem_eq layer yy0 w p w _ xx0 hx hmidlen]
      cases hv : layer.getD (yy0 * w + xx0) none
      · simp only
        apply mergeRowsN_getElem_ne
        intro yy xx hyylt hxx heq
        simp only [CELL_COUNT_X] at heq hw
        omega
      · simp only
    · have hlt : yy0 < m := by omega
      rw [mergeRowN_getElem_ne layer m w p w _ _ ?hne]
      · exact ih hlt
      case hne =>
        intro xx hxx heq
        simp only [CELL_COUNT_X] at heq hw
        omega

/-- C5: when the active piece grounds, the resulting board is pointwise the
specification merge: cells under opaque overlay entries receive exactly that
entry's color, while cells under transparent overlay entries and cells
outside the piece's bounding box keep their previous value — a transparent
overlay entry never overwrites a locked cell. -/
theorem c5_ground_merge_pointwise (s : GameState) (p : Point)
    (c : TetrisCellColor) (f : Figure) (x y : Nat)
    (hfig : s.figure = some (p, c, f))
    (hmoved : (tryMoveFigureDown s).2 = false)
    (hlen : s.cells.length = CELL_COUNT_X * CELL_COUNT_Y)
    (hw : p.x + f.dimensions.1 ≤ CELL_COUNT_X)
    (hx : x < CELL_COUNT_X) (hy : y < CELL_COUNT_Y) :
    ((tryMoveFigureDown s).1.cells)[y * CELL_COUNT_X + x]? =
      groundMergeSpec s.cells p f.dimensions.1 f.dimensions.2 s.figureLayer
        x y := by
  obtain ⟨cells, fig, layer⟩ := s
  simp only at hfig
  subst hfig
  simp only at hlen hw ⊢
  cases hgd : decide (p.y + f.dimensions.2 < CELL_COUNT_Y) &&
      ! figureOverlapsCells cells ⟨p.x, p.y + 1⟩ f
  case true => simp [tryMoveFigureDown, hgd] at hmoved
  case false =>
    simp only [tryMoveFigureDown, hgd, Bool.false_eq_true, if_false,
      mergeFigureLayer]
    by_cases hbox : p.x ≤ x ∧ x < p.x + f.dimensions.1 ∧ p.y ≤ y ∧
        y < p.y + f.dimensions.2
    · have h1 : p.y + (y - p.y) = y := by omega
      have h2 : p.x + (x - p.x) = x := by omega
      have hm := mergeRowsN_getElem_eq layer f.dimensions.1 p f.dimensions.2
        cells (y - p.y) (x - p.x) (by omega) (by omega) hw
        (by rw [h1, h2]; simp only [CELL_COUNT_X, CELL_COUNT_Y] at hlen hx hy ⊢
            omega)
      rw [h1, h2] at hm
      rw [hm]
      simp only [groundMergeSpec]
      rw [if_pos hbox]
    · rw [mergeRowsN_getElem_ne]
      · simp only [groundMergeSpec]
        rw [if_neg hbox]
      · intro yy xx hyy hxx heq
        apply hbox
        simp only [CELL_COUNT_X] at heq hw hx
        refine ⟨by omega, by omega, by omega, by omega⟩

/-- Witness for C5 at a concrete input: grounding the cube resting on the
floor writes its top-left cell exactly as the specification merge does. -/
theorem c5_ground_merge_pointwise_witness :
    ((tryMoveFigureDown floorCubeState).1.cells)[14 * CELL_COUNT_X + 4]? =
      groundMergeSpec floorCubeState.cells ⟨4, 14⟩ Figure.Cube.dimensions.1
        Figure.Cube.dimensions.2 floorCubeState.figureLayer 4 14 :=
  c5_ground_merge_pointwise floorCubeState ⟨4, 14⟩ .Red .Cube 4 14 rfl
    (by decide) (by decide) (by decide) (by decide) (by decide)
